import Mathlib

/-!
Shallow embedding of the CodeHunt-2026 backend phase-progression state machine
(src/backend/server.js): the team record, the per-phase submit/complete request
handlers operating on a single team record, and the leaderboard query.

Handlers are modelled as pure functions from the resolved team record and the
request payload to the pair of (HTTP outcome, post-state of the team record).
The in-memory store's deep-merge `saveTeam` only ever touches the named fields,
so a record update on the team structure is an exact model of each write.
JavaScript string operations (trim, toLowerCase, toUpperCase, includes,
parseInt on decimal strings) are modelled character-wise; all strings compared
by the handlers are ASCII, where the JS and model semantics coincide.
-/

namespace CodeHunt

/-- JSON-ish request values as they reach the handler comparisons: a number, a
string, or anything else (undefined, null, booleans, objects), which compares
unequal to every number and is not a string. -/
inductive JVal where
  | num (n : Int)
  | str (s : String)
  | other
  deriving DecidableEq, Repr

/-- The team record created by POST /api/teams/register (server.js lines
477-491) and mutated by the phase handlers via `saveTeam` merges. -/
structure Team where
  teamId : String
  teamName : String
  teamLeader : String
  teamMembers : List String
  email : String
  theme : String
  phase1Completed : Bool
  phase1Prompt : Option String
  phase2Completed : Bool
  phase3Completed : Bool
  phase4Completed : Bool
  phase5Completed : Bool
  phase6Completed : Bool
  phase6Location : Option String
  currentPhase : Nat
  deriving DecidableEq, Repr

/- ----------------------------------------------------------------
JavaScript string primitives, modelled on the character list.
---------------------------------------------------------------- -/

def jsToUpper (s : String) : String := ⟨s.data.map Char.toUpper⟩

def jsToLower (s : String) : String := ⟨s.data.map Char.toLower⟩

def jsTrim (s : String) : String :=
  ⟨((s.data.dropWhile Char.isWhitespace).reverse.dropWhile Char.isWhitespace).reverse⟩

def isPrefixChars : List Char → List Char → Bool
  | [], _ => true
  | _ :: _, [] => false
  | a :: as, b :: bs => a == b && isPrefixChars as bs

def containsChars (s pat : List Char) : Bool :=
  match s with
  | [] => isPrefixChars pat []
  | _ :: rest => isPrefixChars pat s || containsChars rest pat

/-- JS `s.includes(pat)` for a non-empty pattern. -/
def jsIncludes (s pat : String) : Bool := containsChars s.data pat.data

/-- Numeric value of the leading decimal-digit block, if any. -/
def digitsVal (cs : List Char) : Option Nat :=
  let ds := cs.takeWhile Char.isDigit
  if ds.isEmpty then none
  else some (ds.foldl (fun acc c => acc * 10 + (c.toNat - 48)) 0)

/-- JS `parseInt(s)` on decimal strings: skip leading whitespace, optional
sign, then the longest digit run; `none` models NaN. (The hexadecimal `0x`
form accepted by parseInt is not modelled; no riddle key uses it.) -/
def jsParseInt (s : String) : Option Int :=
  match s.data.dropWhile Char.isWhitespace with
  | '-' :: rest => (digitsVal rest).map (fun n => -(n : Int))
  | '+' :: rest => (digitsVal rest).map (fun n => (n : Int))
  | cs => (digitsVal cs).map (fun n => (n : Int))

/-- JS `answer ? answer.trim().toLowerCase() : ''` (phase 4, line 792). -/
def jsNormalizeAnswer (answer : Option String) : String :=
  match answer with
  | none => ""
  | some s => if s = "" then "" else jsToLower (jsTrim s)

/-- JS `x || ''` on an optional string. -/
def jsOrEmpty : Option String → String
  | none => ""
  | some s => s

/- ----------------------------------------------------------------
Question / riddle data (only the fields the handlers consult:
`id` and the private correctness key).
---------------------------------------------------------------- -/

/-- A multiple-choice item: public text and options elided, the `id` and the
private `correctAnswer` index kept. -/
structure MCQ where
  id : Nat
  correctAnswer : Int
  deriving DecidableEq, Repr

/-- The ten phase-2 quiz questions (server.js lines 270-331), keyed by their
`correctAnswer` indices. -/
def phase2Questions : List MCQ :=
  [⟨1, 2⟩, ⟨2, 0⟩, ⟨3, 2⟩, ⟨4, 3⟩, ⟨5, 1⟩, ⟨6, 2⟩, ⟨7, 3⟩, ⟨8, 3⟩, ⟨9, 3⟩, ⟨10, 2⟩]

/-- The five phase-3 code-reading questions (server.js lines 334-370). -/
def phase3Questions : List MCQ :=
  [⟨1, 0⟩, ⟨2, 1⟩, ⟨3, 0⟩, ⟨4, 0⟩, ⟨5, 2⟩]

/-- Correctness key of a phase-5 riddle: an MCQ index or a set of accepted
free-text answers. -/
inductive RiddleKey where
  | mcq (correctAnswer : Int)
  | text (acceptedAnswers : List String)
  deriving DecidableEq, Repr

structure Riddle where
  id : Int
  key : RiddleKey
  deriving DecidableEq, Repr

/-- The three phase-5 riddles (server.js lines 398-429). -/
def phase5Riddles : List Riddle :=
  [⟨1, .mcq 2⟩, ⟨2, .mcq 2⟩,
   ⟨3, .text ["BLDG 2", "BLDG2", "bldg 2", "bldg2", "Bldg 2", "Bldg2"]⟩]

def totalRiddles : Nat := phase5Riddles.length

/- ----------------------------------------------------------------
HTTP outcomes and response shapes.
---------------------------------------------------------------- -/

/-- Non-2xx outcomes: `badRequest` is `res.status(400)`, `notFound` 404,
`serverError` the catch-all 500 reached when the handler body throws. -/
inductive HttpError where
  | badRequest (msg : String)
  | notFound (msg : String)
  | serverError (msg : String)
  deriving DecidableEq, Repr

def isErr {α : Type} : Except HttpError α → Bool
  | .error _ => true
  | .ok _ => false

structure P1Resp where
  success : Bool
  message : String
  deriving DecidableEq, Repr

structure P2CompleteResp where
  success : Bool
  message : String
  deriving DecidableEq, Repr

structure P2Result where
  questionIndex : Nat
  isCorrect : Bool
  deriving DecidableEq, Repr

structure P2SubmitResp where
  success : Bool
  score : Nat
  total : Nat
  passed : Bool
  results : List P2Result
  deriving DecidableEq, Repr

structure P3Result where
  questionId : Nat
  userAnswer : Option JVal
  correctAnswer : Int
  isCorrect : Bool
  deriving DecidableEq, Repr

structure P3Resp where
  success : Bool
  score : Nat
  passed : Bool
  results : List P3Result
  questions : List MCQ
  deriving DecidableEq, Repr

structure P4Resp where
  success : Bool
  correct : Bool
  message : String
  room : Option String
  deriving DecidableEq, Repr

structure P5CompleteResp where
  success : Bool
  score : Nat
  total : Option Nat
  message : String
  deriving DecidableEq, Repr

structure P6Resp where
  success : Bool
  message : String
  teamName : String
  teamLeader : String
  deriving DecidableEq, Repr

/- ----------------------------------------------------------------
Request handlers (each on the already-resolved team record).
---------------------------------------------------------------- -/

/-- POST /api/teams/register, lines 477-493: the record created for a freshly
registered team (field validation of the identity data happens before this
record is built and does not touch the phase fields). -/
def registerTeam (teamId teamName teamLeader : String) (members : List String)
    (email theme : String) : Team :=
  { teamId := teamId
    teamName := jsToLower teamName
    teamLeader := teamLeader
    teamMembers := members
    email := email
    theme := theme
    phase1Completed := false
    phase1Prompt := none
    phase2Completed := false
    phase3Completed := false
    phase4Completed := false
    phase5Completed := false
    phase6Completed := false
    phase6Location := none
    currentPhase := 1 }

/-- POST /api/phase1/submit, lines 509-553. `aiPrompt = none` models a missing
field and `some ""` the falsy empty string, both caught by the `!aiPrompt`
presence check. -/
def phase1Submit (team : Team) (aiPrompt : Option String) :
    Except HttpError P1Resp × Team :=
  match aiPrompt with
  | none => (.error (.badRequest "Team ID and AI prompt are required"), team)
  | some p =>
    if p = "" then (.error (.badRequest "Team ID and AI prompt are required"), team)
    else if team.phase1Completed then
      (.error (.badRequest "Phase 1 already completed"), team)
    else if team.currentPhase ≠ 1 then
      (.error (.badRequest "Not on Phase 1"), team)
    else if jsIncludes (jsToUpper p) "VU2050" then
      (.ok { success := true, message := "Phase 1 completed!" },
       { team with phase1Prompt := some p, phase1Completed := true, currentPhase := 2 })
    else
      (.error (.badRequest "AI Prompt must contain keyword VU2050"), team)

/-- POST /api/phase2/check-answer, lines 579-601 (stateless). -/
def phase2CheckAnswer (questionIndex : Option Int) (answer : Option JVal) :
    Except HttpError Bool :=
  match questionIndex, answer with
  | none, _ => .error (.badRequest "questionIndex and answer are required")
  | _, none => .error (.badRequest "questionIndex and answer are required")
  | some qi, some a =>
    if qi < 0 ∨ (phase2Questions.length : Int) ≤ qi then
      .error (.badRequest "Invalid question index")
    else
      match phase2Questions[qi.toNat]? with
      | some q => .ok (a == JVal.num q.correctAnswer)
      | none => .error (.serverError "Cannot read properties of undefined")

/-- POST /api/phase2/complete, lines 604-631: guarded only by the phase-2
completed flag (the handler performs no `currentPhase` check and no scoring). -/
def phase2Complete (team : Team) : Except HttpError P2CompleteResp × Team :=
  if team.phase2Completed then
    (.error (.badRequest "Phase 2 already completed"), team)
  else
    (.ok { success := true, message := "Phase 2 completed!" },
     { team with phase2Completed := true, currentPhase := 3 })

/-- Per-question grading of a phase-2 submission, lines 651-659: the answer at
each index must be strictly equal to the question's `correctAnswer` number. -/
def phase2Results (answers : List JVal) : List P2Result :=
  phase2Questions.enum.map fun p =>
    { questionIndex := p.1
      isCorrect := answers[p.1]? == some (JVal.num p.2.correctAnswer) }

def phase2Score (answers : List JVal) : Nat :=
  (phase2Results answers).countP (·.isCorrect)

/-- POST /api/phase2/submit, lines 634-688: guarded only by the phase-2
completed flag; all ten questions must be correct to pass; a failing
submission writes `completed := passed = false` and leaves `currentPhase`
untouched. `answers = none` models a missing field, on which the indexing in
the scoring loop throws and is caught as a 500. -/
def phase2Submit (team : Team) (answers : Option (List JVal)) :
    Except HttpError P2SubmitResp × Team :=
  if team.phase2Completed then
    (.error (.badRequest "Phase 2 already completed"), team)
  else
    match answers with
    | none => (.error (.serverError "Cannot read properties of undefined"), team)
    | some a =>
      let score := phase2Score a
      if score = phase2Questions.length then
        (.ok { success := true, score := score, total := phase2Questions.length,
               passed := true, results := phase2Results a },
         { team with phase2Completed := true, currentPhase := 3 })
      else
        (.ok { success := true, score := score, total := phase2Questions.length,
               passed := false, results := phase2Results a },
         { team with phase2Completed := false })

/-- Per-question grading of a phase-3 submission, lines 720-730. -/
def phase3Results (answers : List JVal) : List P3Result :=
  phase3Questions.enum.map fun p =>
    { questionId := p.2.id
      userAnswer := answers[p.1]?
      correctAnswer := p.2.correctAnswer
      isCorrect := answers[p.1]? == some (JVal.num p.2.correctAnswer) }

def phase3Score (answers : List JVal) : Nat :=
  (phase3Results answers).countP (·.isCorrect)

def MIN_SCORE : Nat := 3

/-- POST /api/phase3/submit, lines 702-766: requires `currentPhase = 3` and
phase 3 not completed; passes at `MIN_SCORE = 3` of 5; both the pass and the
fail response carry the full `phase3Questions` data (correct answers
included). -/
def phase3Submit (team : Team) (answers : Option (List JVal)) :
    Except HttpError P3Resp × Team :=
  if team.currentPhase ≠ 3 then (.error (.badRequest "Not on Phase 3"), team)
  else if team.phase3Completed then
    (.error (.badRequest "Phase 3 already completed"), team)
  else
    match answers with
    | none => (.error (.serverError "Cannot read properties of undefined"), team)
    | some a =>
      let score := phase3Score a
      if score < MIN_SCORE then
        (.ok { success := true, score := score, passed := false,
               results := phase3Results a, questions := phase3Questions }, team)
      else
        (.ok { success := true, score := score, passed := true,
               results := phase3Results a, questions := phase3Questions },
         { team with phase3Completed := true, currentPhase := 4 })

/-- POST /api/phase4/submit, lines 774-822: the normalized answer must equal
the canonical string or the alias "22". -/
def phase4Submit (team : Team) (answer : Option String) :
    Except HttpError P4Resp × Team :=
  if team.currentPhase ≠ 4 then (.error (.badRequest "Not on Phase 4"), team)
  else if team.phase4Completed then
    (.error (.badRequest "Phase 4 already completed"), team)
  else
    let userAnswer := jsNormalizeAnswer answer
    if userAnswer = "positive sum: 22, count: 4" ∨ userAnswer = "22" then
      (.ok { success := true, correct := true,
             message := "Correct! The next treasure is at Room 2012!",
             room := some "2012" },
       { team with phase4Completed := true, currentPhase := 5 })
    else
      (.ok { success := false, correct := false,
             message := "Incorrect output. Try again!", room := none }, team)

def jsToString : JVal → String
  | .num n => toString n
  | .str s => s
  | .other => "undefined"

/-- POST /api/phase5/answer, lines 836-869 (stateless per-riddle check). -/
def phase5Answer (team : Team) (riddleId : JVal) (answer : JVal) :
    Except HttpError Bool :=
  if team.currentPhase ≠ 5 then .error (.badRequest "Not on Phase 5")
  else
    match phase5Riddles.find? (fun r => JVal.num r.id == riddleId) with
    | none => .error (.badRequest "Invalid riddle")
    | some r =>
      match r.key with
      | .mcq c => .ok (answer == JVal.num c)
      | .text accepted =>
        .ok (accepted.any fun a =>
          jsToLower (jsTrim a) = jsTrim (jsToLower (jsToString answer)))

/-- Correctness of one submitted phase-5 answer value against a riddle's key,
lines 892-897. -/
def riddleCorrect (r : Riddle) (v : JVal) : Bool :=
  match r.key with
  | .mcq c => v == JVal.num c
  | .text accepted =>
    match v with
    | .str s => accepted.any fun a => jsToLower (jsTrim a) = jsToLower (jsTrim s)
    | _ => false

/-- The server-side recomputed phase-5 score, lines 886-900: iterate the
entries of the submitted `answers` object (keys are strings, values carry the
`answer` field), resolve each key with `parseInt` against the riddle ids, and
count the correct ones. `none` models an absent or non-object `answers`. -/
def phase5ServerScore (answers : Option (List (String × JVal))) : Nat :=
  match answers with
  | none => 0
  | some entries =>
    entries.countP fun e =>
      match jsParseInt e.1 with
      | none => false
      | some n =>
        match phase5Riddles.find? (fun r => r.id == n) with
        | none => false
        | some r => riddleCorrect r e.2

/-- POST /api/phase5/complete, lines 872-931: requires `currentPhase = 5` (no
completed-flag check); the score is recomputed server-side and the
client-supplied `score` field is never read; all riddles must be correct. -/
def phase5Complete (team : Team) (answers : Option (List (String × JVal)))
    (score : JVal) : Except HttpError P5CompleteResp × Team :=
  if team.currentPhase ≠ 5 then (.error (.badRequest "Not on Phase 5"), team)
  else
    let serverScore := phase5ServerScore answers
    if serverScore < totalRiddles then
      (.ok { success := false, score := serverScore, total := some totalRiddles,
             message := "You scored " ++ toString serverScore ++ "/" ++
               toString totalRiddles ++
               ". All challenges must be correct to pass. Try again!" }, team)
    else
      (.ok { success := true, score := serverScore, total := none,
             message := "Phase 5 completed! Proceed to the final phase." },
       { team with phase5Completed := true, currentPhase := 6 })

/-- POST /api/phase6/submit, lines 934-971: always passes, records the
free-text location answer, sets the terminal `currentPhase = 7`. -/
def phase6Submit (team : Team) (locationAnswer : Option String) :
    Except HttpError P6Resp × Team :=
  if team.currentPhase ≠ 6 then (.error (.badRequest "Not on Phase 6"), team)
  else if team.phase6Completed then
    (.error (.badRequest "Already completed"), team)
  else
    (.ok { success := true,
           message := "Congratulations! You have completed CodeHunt-2026!",
           teamName := team.teamName, teamLeader := team.teamLeader },
     { team with phase6Location := some (jsOrEmpty locationAnswer),
                 phase6Completed := true, currentPhase := 7 })

/-- Leaderboard projection of a team, lines 204-218. -/
structure LeaderboardEntry where
  teamId : String
  teamName : String
  teamLeader : String
  deriving DecidableEq, Repr

/-- `getCompletedTeams`, lines 198-222 (in-memory backend): the teams with
phase 6 completed, projected, capped at 10 by `slice(0, 10)`. GET
/api/leaderboard (lines 974-981) returns exactly this list. -/
def getCompletedTeams (teams : List Team) : List LeaderboardEntry :=
  ((teams.filter (·.phase6Completed)).map
    (fun t => { teamId := t.teamId, teamName := t.teamName,
                teamLeader := t.teamLeader })).take 10

/- ----------------------------------------------------------------
The per-team transition system generated by the mutating handlers.
---------------------------------------------------------------- -/

/-- One handler invocation with its request payload. -/
inductive Event where
  | p1 (aiPrompt : Option String)
  | p2check (questionIndex : Option Int) (answer : Option JVal)
  | p2complete
  | p2submit (answers : Option (List JVal))
  | p3submit (answers : Option (List JVal))
  | p4submit (answer : Option String)
  | p5answer (riddleId : JVal) (answer : JVal)
  | p5complete (answers : Option (List (String × JVal))) (score : JVal)
  | p6submit (locationAnswer : Option String)

/-- The team record after one handler invocation (the check-answer endpoints
never write to the store). -/
def applyEvent (t : Team) : Event → Team
  | .p1 p => (phase1Submit t p).2
  | .p2check _ _ => t
  | .p2complete => (phase2Complete t).2
  | .p2submit a => (phase2Submit t a).2
  | .p3submit a => (phase3Submit t a).2
  | .p4submit a => (phase4Submit t a).2
  | .p5answer _ _ => t
  | .p5complete a s => (phase5Complete t a s).2
  | .p6submit l => (phase6Submit t l).2

/-- Team states reachable from registration by handler invocations. -/
inductive Reachable : Team → Prop where
  | init (teamId teamName teamLeader : String) (members : List String)
      (email theme : String) :
      Reachable (registerTeam teamId teamName teamLeader members email theme)
  | step {t : Team} (e : Event) : Reachable t → Reachable (applyEvent t e)

/-- The reachable-state invariant tying the completion flags to
`currentPhase`. -/
def Inv (t : Team) : Prop :=
  1 ≤ t.currentPhase ∧ t.currentPhase ≤ 7 ∧
  (t.phase1Completed = true → 2 ≤ t.currentPhase) ∧
  (t.phase2Completed = true → 3 ≤ t.currentPhase) ∧
  (t.phase3Completed = true → 4 ≤ t.currentPhase) ∧
  (t.phase4Completed = true → 5 ≤ t.currentPhase) ∧
  (t.phase5Completed = true → 6 ≤ t.currentPhase) ∧
  (t.phase6Completed = true → 7 ≤ t.currentPhase) ∧
  (3 ≤ t.currentPhase → t.phase2Completed = true) ∧
  (4 ≤ t.currentPhase → t.phase3Completed = true) ∧
  (5 ≤ t.currentPhase → t.phase4Completed = true) ∧
  (6 ≤ t.currentPhase → t.phase5Completed = true) ∧
  (7 ≤ t.currentPhase → t.phase6Completed = true)

/- ----------------------------------------------------------------
Concrete data: a registered team and a full passing run.
---------------------------------------------------------------- -/

def sampleTeam : Team :=
  registerTeam "TEAM_1" "Alpha" "lead" ["a", "b", "c"] "a@b.c" "AI in Education & Learning"

def correctP2 : List JVal :=
  [.num 2, .num 0, .num 2, .num 3, .num 1, .num 2, .num 3, .num 3, .num 3, .num 2]

def correctP3 : List JVal := [.num 0, .num 1, .num 0, .num 0, .num 2]

def correctP5 : List (String × JVal) :=
  [("1", .num 2), ("2", .num 2), ("3", .str "bldg2")]

/-- A phase-2 answer sheet with nine of ten correct (last one wrong). -/
def almostP2 : List JVal :=
  [.num 2, .num 0, .num 2, .num 3, .num 1, .num 2, .num 3, .num 3, .num 3, .num 0]

/-- A phase-3 answer sheet scoring exactly 3 of 5. -/
def score3Answers : List JVal := [.num 0, .num 1, .num 0, .num 9, .num 9]

/-- A phase-3 answer sheet scoring exactly 2 of 5. -/
def score2Answers : List JVal := [.num 0, .num 1, .num 9, .num 9, .num 9]

/-- A phase-5 answer map with riddle 1 wrong. -/
def wrongP5 : List (String × JVal) :=
  [("1", .num 0), ("2", .num 2), ("3", .str "bldg2")]

def run1 : Team := applyEvent sampleTeam (.p1 (some "test VU2050 plan"))

def run2 : Team := applyEvent run1 (.p2submit (some correctP2))

def run3 : Team := applyEvent run2 (.p3submit (some correctP3))

def run4 : Team := applyEvent run3 (.p4submit (some "22"))

def run5 : Team := applyEvent run4 (.p5complete (some correctP5) .other)

def run6 : Team := applyEvent run5 (.p6submit (some "library"))

/-- A team record with `currentPhase = 9` and phase 2 flagged completed, used
to exercise every wrong-phase guard at once. -/
def guardTeam : Team :=
  { sampleTeam with currentPhase := 9, phase2Completed := true }

/-- Success markers on handler outcomes. -/
def p2Passed : Except HttpError P2SubmitResp → Bool
  | .ok r => r.passed
  | .error _ => false

def p3Passed : Except HttpError P3Resp → Bool
  | .ok r => r.passed
  | .error _ => false

def p4Correct : Except HttpError P4Resp → Bool
  | .ok r => r.correct
  | .error _ => false

def p5Success : Except HttpError P5CompleteResp → Bool
  | .ok r => r.success
  | .error _ => false

def p5Score : Except HttpError P5CompleteResp → Option Nat
  | .ok r => some r.score
  | .error _ => none

instance {ε α : Type} [DecidableEq ε] [DecidableEq α] : DecidableEq (Except ε α) :=
  fun a b =>
    match a, b with
    | .ok x, .ok y =>
      if h : x = y then .isTrue (by rw [h]) else .isFalse (by simp [h])
    | .error x, .error y =>
      if h : x = y then .isTrue (by rw [h]) else .isFalse (by simp [h])
    | .ok _, .error _ => .isFalse (by simp)
    | .error _, .ok _ => .isFalse (by simp)

/- ----------------------------------------------------------------
The reachable-state invariant.
---------------------------------------------------------------- -/

theorem inv_registerTeam (teamId teamName teamLeader : String)
    (members : List String) (email theme : String) :
    Inv (registerTeam teamId teamName teamLeader members email theme) := by
  simp [Inv, registerTeam]

theorem phase1Submit_cases (t : Team) (p : Option String) :
    (isErr (phase1Submit t p).1 = true ∧ (phase1Submit t p).2 = t) ∨
    (∃ s, p = some s ∧ s ≠ "" ∧ t.phase1Completed = false ∧ t.currentPhase = 1 ∧
      jsIncludes (jsToUpper s) "VU2050" = true ∧
      phase1Submit t p = (.ok { success := true, message := "Phase 1 completed!" },
        { t with phase1Prompt := some s, phase1Completed := true, currentPhase := 2 })) := by
  cases p with
  | none => left; exact ⟨rfl, rfl⟩
  | some s =>
    by_cases hs : s = ""
    · subst hs; left; exact ⟨rfl, rfl⟩
    · by_cases hb : t.phase1Completed = true
      · left; refine ⟨?_, ?_⟩ <;> simp [phase1Submit, isErr, hs, hb]
      · by_cases hcp : t.currentPhase = 1
        · by_cases hinc : jsIncludes (jsToUpper s) "VU2050" = true
          · right
            exact ⟨s, rfl, hs, by simpa using hb, hcp, hinc,
              by simp [phase1Submit, hs, hb, hcp, hinc]⟩
          · left; refine ⟨?_, ?_⟩ <;> simp [phase1Submit, isErr, hs, hb, hcp, hinc]
        · left; refine ⟨?_, ?_⟩ <;> simp [phase1Submit, isErr, hs, hb, hcp]

theorem phase2Complete_cases (t : Team) :
    (t.phase2Completed = true ∧ isErr (phase2Complete t).1 = true ∧
      (phase2Complete t).2 = t) ∨
    (t.phase2Completed = false ∧
      phase2Complete t = (.ok { success := true, message := "Phase 2 completed!" },
        { t with phase2Completed := true, currentPhase := 3 })) := by
  by_cases hb : t.phase2Completed = true
  · left; refine ⟨hb, ?_, ?_⟩ <;> simp [phase2Complete, isErr, hb]
  · right; refine ⟨by simpa using hb, ?_⟩; simp [phase2Complete, hb]

theorem phase2Submit_cases (t : Team) (a : Option (List JVal)) :
    (isErr (phase2Submit t a).1 = true ∧ (phase2Submit t a).2 = t) ∨
    (∃ l, a = some l ∧ t.phase2Completed = false ∧
      ((phase2Score l = phase2Questions.length ∧
        phase2Submit t a = (.ok { success := true, score := phase2Score l,
                                  total := phase2Questions.length, passed := true,
                                  results := phase2Results l },
          { t with phase2Completed := true, currentPhase := 3 })) ∨
       (phase2Score l ≠ phase2Questions.length ∧
        phase2Submit t a = (.ok { success := true, score := phase2Score l,
                                  total := phase2Questions.length, passed := false,
                                  results := phase2Results l },
          { t with phase2Completed := false })))) := by
  by_cases hb : t.phase2Completed = true
  · left; refine ⟨?_, ?_⟩ <;> simp [phase2Submit, isErr, hb]
  · cases a with
    | none => left; refine ⟨?_, ?_⟩ <;> simp [phase2Submit, isErr, hb]
    | some l =>
      right
      refine ⟨l, rfl, by simpa using hb, ?_⟩
      by_cases hpass : phase2Score l = phase2Questions.length
      · left; exact ⟨hpass, by simp [phase2Submit, hb, hpass]⟩
      · right; exact ⟨hpass, by simp [phase2Submit, hb, hpass]⟩

theorem phase3Submit_cases (t : Team) (a : Option (List JVal)) :
    (isErr (phase3Submit t a).1 = true ∧ (phase3Submit t a).2 = t) ∨
    (∃ l, a = some l ∧ t.currentPhase = 3 ∧ t.phase3Completed = false ∧
      ((MIN_SCORE ≤ phase3Score l ∧
        phase3Submit t a = (.ok { success := true, score := phase3Score l, passed := true,
                                  results := phase3Results l, questions := phase3Questions },
          { t with phase3Completed := true, currentPhase := 4 })) ∨
       (phase3Score l < MIN_SCORE ∧
        phase3Submit t a = (.ok { success := true, score := phase3Score l, passed := false,
                                  results := phase3Results l, questions := phase3Questions },
          t)))) := by
  by_cases hcp : t.currentPhase = 3
  · by_cases hb : t.phase3Completed = true
    · left; refine ⟨?_, ?_⟩ <;> simp [phase3Submit, isErr, hcp, hb]
    · cases a with
      | none => left; refine ⟨?_, ?_⟩ <;> simp [phase3Submit, isErr, hcp, hb]
      | some l =>
        right
        refine ⟨l, rfl, hcp, by simpa using hb, ?_⟩
        by_cases hsc : phase3Score l < MIN_SCORE
        · right; exact ⟨hsc, by simp [phase3Submit, hcp, hb, hsc]⟩
        · left; exact ⟨by omega, by simp [phase3Submit, hcp, hb, hsc]⟩
  · left; refine ⟨?_, ?_⟩ <;> simp [phase3Submit, isErr, hcp]

theorem phase4Submit_cases (t : Team) (a : Option String) :
    (isErr (phase4Submit t a).1 = true ∧ (phase4Submit t a).2 = t) ∨
    (t.currentPhase = 4 ∧ t.phase4Completed = false ∧
      (((jsNormalizeAnswer a = "positive sum: 22, count: 4" ∨ jsNormalizeAnswer a = "22") ∧
        phase4Submit t a = (.ok { success := true, correct := true,
                                  message := "Correct! The next treasure is at Room 2012!",
                                  room := some "2012" },
          { t with phase4Completed := true, currentPhase := 5 })) ∨
       (¬(jsNormalizeAnswer a = "positive sum: 22, count: 4" ∨ jsNormalizeAnswer a = "22") ∧
        phase4Submit t a = (.ok { success := false, correct := false,
                                  message := "Incorrect output. Try again!",
                                  room := none },
          t)))) := by
  by_cases hcp : t.currentPhase = 4
  · by_cases hb : t.phase4Completed = true
    · left; refine ⟨?_, ?_⟩ <;> simp [phase4Submit, isErr, hcp, hb]
    · right
      refine ⟨hcp, by simpa using hb, ?_⟩
      by_cases hok : jsNormalizeAnswer a = "positive sum: 22, count: 4" ∨
          jsNormalizeAnswer a = "22"
      · left
        refine ⟨hok, ?_⟩
        unfold phase4Submit
        rw [if_neg (not_not_intro hcp), if_neg (by simpa using hb), if_pos hok]
      · right
        refine ⟨hok, ?_⟩
        unfold phase4Submit
        rw [if_neg (not_not_intro hcp), if_neg (by simpa using hb), if_neg hok]
  · left; refine ⟨?_, ?_⟩ <;> simp [phase4Submit, isErr, hcp]

theorem phase5Complete_cases (t : Team) (a : Option (List (String × JVal))) (s : JVal) :
    (t.currentPhase ≠ 5 ∧ isErr (phase5Complete t a s).1 = true ∧
      (phase5Complete t a s).2 = t) ∨
    (t.currentPhase = 5 ∧
      ((phase5ServerScore a < totalRiddles ∧
        phase5Complete t a s = (.ok { success := false,
                                      score := phase5ServerScore a,
                                      total := some totalRiddles,
                                      message := "You scored " ++
                                        toString (phase5ServerScore a) ++ "/" ++
                                        toString totalRiddles ++
                                        ". All challenges must be correct to pass. Try again!" },
          t)) ∨
       (totalRiddles ≤ phase5ServerScore a ∧
        phase5Complete t a s = (.ok { success := true,
                                      score := phase5ServerScore a,
                                      total := none,
                                      message := "Phase 5 completed! Proceed to the final phase." },
          { t with phase5Completed := true, currentPhase := 6 })))) := by
  by_cases hcp : t.currentPhase = 5
  · right
    refine ⟨hcp, ?_⟩
    by_cases hsc : phase5ServerScore a < totalRiddles
    · left; exact ⟨hsc, by simp [phase5Complete, hcp, hsc]⟩
    · right; exact ⟨by omega, by simp [phase5Complete, hcp, hsc]⟩
  · left; refine ⟨hcp, ?_, ?_⟩ <;> simp [phase5Complete, isErr, hcp]

theorem phase6Submit_cases (t : Team) (l : Option String) :
    (isErr (phase6Submit t l).1 = true ∧ (phase6Submit t l).2 = t) ∨
    (t.currentPhase = 6 ∧ t.phase6Completed = false ∧
      phase6Submit t l = (.ok { success := true,
                                message := "Congratulations! You have completed CodeHunt-2026!",
                                teamName := t.teamName, teamLeader := t.teamLeader },
        { t with phase6Location := some (jsOrEmpty l), phase6Completed := true,
                 currentPhase := 7 })) := by
  by_cases hcp : t.currentPhase = 6
  · by_cases hb : t.phase6Completed = true
    · left; refine ⟨?_, ?_⟩ <;> simp [phase6Submit, isErr, hcp, hb]
    · right
      refine ⟨hcp, by simpa using hb, ?_⟩
      simp [phase6Submit, hcp, hb]
  · left; refine ⟨?_, ?_⟩ <;> simp [phase6Submit, isErr, hcp]

theorem inv_phase1Submit (t : Team) (p : Option String) (h : Inv t) :
    Inv (phase1Submit t p).2 := by
  obtain ⟨h1, h2, h3, h4, h5, h6, h7, h8, h9, h10, h11, h12, h13⟩ := h
  rcases phase1Submit_cases t p with ⟨_, heq⟩ | ⟨s, _, _, _, hcp, _, heq⟩
  · rw [heq]; exact ⟨h1, h2, h3, h4, h5, h6, h7, h8, h9, h10, h11, h12, h13⟩
  · rw [heq]
    refine ⟨?_, ?_, ?_, ?_, ?_, ?_, ?_, ?_, ?_, ?_, ?_, ?_, ?_⟩
    · show (1 : Nat) ≤ 2; omega
    · show (2 : Nat) ≤ 7; omega
    · intro _; show (2 : Nat) ≤ 2; omega
    · intro hc; exfalso; have := h4 hc; omega
    · intro hc; exfalso; have := h5 hc; omega
    · intro hc; exfalso; have := h6 hc; omega
    · intro hc; exfalso; have := h7 hc; omega
    · intro hc; exfalso; have := h8 hc; omega
    · intro hc; exfalso; have hx : (3 : Nat) ≤ 2 := hc; omega
    · intro hc; exfalso; have hx : (4 : Nat) ≤ 2 := hc; omega
    · intro hc; exfalso; have hx : (5 : Nat) ≤ 2 := hc; omega
    · intro hc; exfalso; have hx : (6 : Nat) ≤ 2 := hc; omega
    · intro hc; exfalso; have hx : (7 : Nat) ≤ 2 := hc; omega


theorem inv_phase2Complete (t : Team) (h : Inv t) : Inv (phase2Complete t).2 := by
  obtain ⟨h1, h2, h3, h4, h5, h6, h7, h8, h9, h10, h11, h12, h13⟩ := h
  rcases phase2Complete_cases t with ⟨_, _, heq⟩ | ⟨hb2, heq⟩
  · rw [heq]; exact ⟨h1, h2, h3, h4, h5, h6, h7, h8, h9, h10, h11, h12, h13⟩
  · have hcp2 : t.currentPhase ≤ 2 := by
      by_contra hc
      have hpc := h9 (by omega)
      rw [hb2] at hpc
      exact Bool.false_ne_true hpc
    rw [heq]
    refine ⟨?_, ?_, ?_, ?_, ?_, ?_, ?_, ?_, ?_, ?_, ?_, ?_, ?_⟩
    · show (1 : Nat) ≤ 3; omega
    · show (3 : Nat) ≤ 7; omega
    · intro _; show (2 : Nat) ≤ 3; omega
    · intro _; show (3 : Nat) ≤ 3; omega
    · intro hc; exfalso; have := h5 hc; omega
    · intro hc; exfalso; have := h6 hc; omega
    · intro hc; exfalso; have := h7 hc; omega
    · intro hc; exfalso; have := h8 hc; omega
    · intro _; rfl
    · intro hc; exfalso; have hx : (4 : Nat) ≤ 3 := hc; omega
    · intro hc; exfalso; have hx : (5 : Nat) ≤ 3 := hc; omega
    · intro hc; exfalso; have hx : (6 : Nat) ≤ 3 := hc; omega
    · intro hc; exfalso; have hx : (7 : Nat) ≤ 3 := hc; omega

theorem inv_phase2Submit (t : Team) (a : Option (List JVal)) (h : Inv t) :
    Inv (phase2Submit t a).2 := by
  obtain ⟨h1, h2, h3, h4, h5, h6, h7, h8, h9, h10, h11, h12, h13⟩ := h
  rcases phase2Submit_cases t a with ⟨_, heq⟩ | ⟨l, _, hb2, ⟨_, heq⟩ | ⟨_, heq⟩⟩
  · rw [heq]; exact ⟨h1, h2, h3, h4, h5, h6, h7, h8, h9, h10, h11, h12, h13⟩
  · have hcp2 : t.currentPhase ≤ 2 := by
      by_contra hc
      have hpc := h9 (by omega)
      rw [hb2] at hpc
      exact Bool.false_ne_true hpc
    rw [heq]
    refine ⟨?_, ?_, ?_, ?_, ?_, ?_, ?_, ?_, ?_, ?_, ?_, ?_, ?_⟩
    · show (1 : Nat) ≤ 3; omega
    · show (3 : Nat) ≤ 7; omega
    · intro _; show (2 : Nat) ≤ 3; omega
    · intro _; show (3 : Nat) ≤ 3; omega
    · intro hc; exfalso; have := h5 hc; omega
    · intro hc; exfalso; have := h6 hc; omega
    · intro hc; exfalso; have := h7 hc; omega
    · intro hc; exfalso; have := h8 hc; omega
    · intro _; rfl
    · intro hc; exfalso; have hx : (4 : Nat) ≤ 3 := hc; omega
    · intro hc; exfalso; have hx : (5 : Nat) ≤ 3 := hc; omega
    · intro hc; exfalso; have hx : (6 : Nat) ≤ 3 := hc; omega
    · intro hc; exfalso; have hx : (7 : Nat) ≤ 3 := hc; omega
  · have hcp2 : t.currentPhase ≤ 2 := by
      by_contra hc
      have hpc := h9 (by omega)
      rw [hb2] at hpc
      exact Bool.false_ne_true hpc
    rw [heq]
    refine ⟨h1, h2, h3, ?_, h5, h6, h7, h8, ?_, h10, h11, h12, h13⟩
    · intro hc; exact absurd hc Bool.false_ne_true
    · intro hc; exfalso; have hx : 3 ≤ t.currentPhase := hc; omega

theorem inv_phase3Submit (t : Team) (a : Option (List JVal)) (h : Inv t) :
    Inv (phase3Submit t a).2 := by
  obtain ⟨h1, h2, h3, h4, h5, h6, h7, h8, h9, h10, h11, h12, h13⟩ := h
  rcases phase3Submit_cases t a with ⟨_, heq⟩ | ⟨l, _, hcp, _, ⟨_, heq⟩ | ⟨_, heq⟩⟩
  · rw [heq]; exact ⟨h1, h2, h3, h4, h5, h6, h7, h8, h9, h10, h11, h12, h13⟩
  · rw [heq]
    refine ⟨?_, ?_, ?_, ?_, ?_, ?_, ?_, ?_, ?_, ?_, ?_, ?_, ?_⟩
    · show (1 : Nat) ≤ 4; omega
    · show (4 : Nat) ≤ 7; omega
    · intro _; show (2 : Nat) ≤ 4; omega
    · intro _; show (3 : Nat) ≤ 4; omega
    · intro _; show (4 : Nat) ≤ 4; omega
    · intro hc; exfalso; have := h6 hc; omega
    · intro hc; exfalso; have := h7 hc; omega
    · intro hc; exfalso; have := h8 hc; omega
    · intro _; exact h9 (by omega)
    · intro _; rfl
    · intro hc; exfalso; have hx : (5 : Nat) ≤ 4 := hc; omega
    · intro hc; exfalso; have hx : (6 : Nat) ≤ 4 := hc; omega
    · intro hc; exfalso; have hx : (7 : Nat) ≤ 4 := hc; omega
  · rw [heq]; exact ⟨h1, h2, h3, h4, h5, h6, h7, h8, h9, h10, h11, h12, h13⟩

theorem inv_phase4Submit (t : Team) (a : Option String) (h : Inv t) :
    Inv (phase4Submit t a).2 := by
  obtain ⟨h1, h2, h3, h4, h5, h6, h7, h8, h9, h10, h11, h12, h13⟩ := h
  rcases phase4Submit_cases t a with ⟨_, heq⟩ | ⟨hcp, _, ⟨_, heq⟩ | ⟨_, heq⟩⟩
  · rw [heq]; exact ⟨h1, h2, h3, h4, h5, h6, h7, h8, h9, h10, h11, h12, h13⟩
  · rw [heq]
    refine ⟨?_, ?_, ?_, ?_, ?_, ?_, ?_, ?_, ?_, ?_, ?_, ?_, ?_⟩
    · show (1 : Nat) ≤ 5; omega
    · show (5 : Nat) ≤ 7; omega
    · intro _; show (2 : Nat) ≤ 5; omega
    · intro _; show (3 : Nat) ≤ 5; omega
    · intro _; show (4 : Nat) ≤ 5; omega
    · intro _; show (5 : Nat) ≤ 5; omega
    · intro hc; exfalso; have := h7 hc; omega
    · intro hc; exfalso; have := h8 hc; omega
    · intro _; exact h9 (by omega)
    · intro _; exact h10 (by omega)
    · intro _; rfl
    · intro hc; exfalso; have hx : (6 : Nat) ≤ 5 := hc; omega
    · intro hc; exfalso; have hx : (7 : Nat) ≤ 5 := hc; omega
  · rw [heq]; exact ⟨h1, h2, h3, h4, h5, h6, h7, h8, h9, h10, h11, h12, h13⟩

theorem inv_phase5Complete (t : Team) (a : Option (List (String × JVal)))
    (s : JVal) (h : Inv t) : Inv (phase5Complete t a s).2 := by
  obtain ⟨h1, h2, h3, h4, h5, h6, h7, h8, h9, h10, h11, h12, h13⟩ := h
  rcases phase5Complete_cases t a s with ⟨_, _, heq⟩ | ⟨hcp, ⟨_, heq⟩ | ⟨_, heq⟩⟩
  · rw [heq]; exact ⟨h1, h2, h3, h4, h5, h6, h7, h8, h9, h10, h11, h12, h13⟩
  · rw [heq]; exact ⟨h1, h2, h3, h4, h5, h6, h7, h8, h9, h10, h11, h12, h13⟩
  · rw [heq]
    refine ⟨?_, ?_, ?_, ?_, ?_, ?_, ?_, ?_, ?_, ?_, ?_, ?_, ?_⟩
    · show (1 : Nat) ≤ 6; omega
    · show (6 : Nat) ≤ 7; omega
    · intro _; show (2 : Nat) ≤ 6; omega
    · intro _; show (3 : Nat) ≤ 6; omega
    · intro _; show (4 : Nat) ≤ 6; omega
    · intro _; show (5 : Nat) ≤ 6; omega
    · intro _; show (6 : Nat) ≤ 6; omega
    · intro hc; exfalso; have := h8 hc; omega
    · intro _; exact h9 (by omega)
    · intro _; exact h10 (by omega)
    · intro _; exact h11 (by omega)
    · intro _; rfl
    · intro hc; exfalso; have hx : (7 : Nat) ≤ 6 := hc; omega

theorem inv_phase6Submit (t : Team) (l : Option String) (h : Inv t) :
    Inv (phase6Submit t l).2 := by
  obtain ⟨h1, h2, h3, h4, h5, h6, h7, h8, h9, h10, h11, h12, h13⟩ := h
  rcases phase6Submit_cases t l with ⟨_, heq⟩ | ⟨hcp, _, heq⟩
  · rw [heq]; exact ⟨h1, h2, h3, h4, h5, h6, h7, h8, h9, h10, h11, h12, h13⟩
  · rw [heq]
    refine ⟨?_, ?_, ?_, ?_, ?_, ?_, ?_, ?_, ?_, ?_, ?_, ?_, ?_⟩
    · show (1 : Nat) ≤ 7; omega
    · show (7 : Nat) ≤ 7; omega
    · intro _; show (2 : Nat) ≤ 7; omega
    · intro _; show (3 : Nat) ≤ 7; omega
    · intro _; show (4 : Nat) ≤ 7; omega
    · intro _; show (5 : Nat) ≤ 7; omega
    · intro _; show (6 : Nat) ≤ 7; omega
    · intro _; show (7 : Nat) ≤ 7; omega
    · intro _; exact h9 (by omega)
    · intro _; exact h10 (by omega)
    · intro _; exact h11 (by omega)
    · intro _; exact h12 (by omega)
    · intro _; rfl


theorem inv_applyEvent (t : Team) (e : Event) (h : Inv t) :
    Inv (applyEvent t e) := by
  cases e with
  | p1 p => exact inv_phase1Submit t p h
  | p2check qi a => exact h
  | p2complete => exact inv_phase2Complete t h
  | p2submit a => exact inv_phase2Submit t a h
  | p3submit a => exact inv_phase3Submit t a h
  | p4submit a => exact inv_phase4Submit t a h
  | p5answer r a => exact h
  | p5complete a s => exact inv_phase5Complete t a s h
  | p6submit l => exact inv_phase6Submit t l h

theorem reachable_inv {t : Team} (h : Reachable t) : Inv t := by
  induction h with
  | init teamId teamName teamLeader members email theme =>
    exact inv_registerTeam teamId teamName teamLeader members email theme
  | step e _ ih => exact inv_applyEvent _ e ih

/- ----------------------------------------------------------------
Reachability of the sample run, and small outcome helpers.
---------------------------------------------------------------- -/

theorem reachable_sampleTeam : Reachable sampleTeam :=
  Reachable.init "TEAM_1" "Alpha" "lead" ["a", "b", "c"] "a@b.c"
    "AI in Education & Learning"

theorem reachable_run1 : Reachable run1 :=
  Reachable.step (Event.p1 (some "test VU2050 plan")) reachable_sampleTeam

theorem reachable_run2 : Reachable run2 :=
  Reachable.step (Event.p2submit (some correctP2)) reachable_run1

theorem reachable_run3 : Reachable run3 :=
  Reachable.step (Event.p3submit (some correctP3)) reachable_run2

theorem reachable_run4 : Reachable run4 :=
  Reachable.step (Event.p4submit (some "22")) reachable_run3

theorem reachable_run5 : Reachable run5 :=
  Reachable.step (Event.p5complete (some correctP5) JVal.other) reachable_run4

theorem reachable_run6 : Reachable run6 :=
  Reachable.step (Event.p6submit (some "library")) reachable_run5

theorem p2Passed_of_isErr {x : Except HttpError P2SubmitResp} (h : isErr x = true) :
    p2Passed x = false := by
  cases x <;> simp_all [isErr, p2Passed]

theorem p3Passed_of_isErr {x : Except HttpError P3Resp} (h : isErr x = true) :
    p3Passed x = false := by
  cases x <;> simp_all [isErr, p3Passed]

theorem p4Correct_of_isErr {x : Except HttpError P4Resp} (h : isErr x = true) :
    p4Correct x = false := by
  cases x <;> simp_all [isErr, p4Correct]

theorem p5Success_of_isErr {x : Except HttpError P5CompleteResp} (h : isErr x = true) :
    p5Success x = false := by
  cases x <;> simp_all [isErr, p5Success]

theorem team_update_p2false (t : Team) (h : t.phase2Completed = false) :
    ({ t with phase2Completed := false } : Team) = t := by
  cases t
  simp_all

/- ----------------------------------------------------------------
Claim C1.
---------------------------------------------------------------- -/

/-- Claim C1 counterexample: the phase-2 complete handler, invoked on a
freshly registered team with `currentPhase = 1 ≠ 2`, answers success and
mutates the record (no state-conflict error), refuting the claim that every
phase-N handler rejects when `currentPhase ≠ N`. -/
theorem C1_counterexample :
    sampleTeam.currentPhase = 1 ∧
    (phase2Complete sampleTeam).1 =
      .ok { success := true, message := "Phase 2 completed!" } ∧
    (phase2Complete sampleTeam).2 ≠ sampleTeam ∧
    (phase2Complete sampleTeam).2.currentPhase = 3 :=
  ⟨rfl, rfl, by decide, rfl⟩

/-- Claim C1 (amended): for phases 1, 3, 4, 5 and 6 a submission when
`currentPhase ≠ N` yields an error and no mutation; the phase-2 submit and
complete handlers check only the phase-2 completed flag (rejecting exactly
when it is set), and when it is clear the phase-2 complete handler mutates
regardless of `currentPhase`. -/
theorem C1_wrongPhaseRejected (t : Team) :
    (∀ p, t.currentPhase ≠ 1 →
      isErr (phase1Submit t p).1 = true ∧ (phase1Submit t p).2 = t) ∧
    (∀ a, t.currentPhase ≠ 3 →
      isErr (phase3Submit t a).1 = true ∧ (phase3Submit t a).2 = t) ∧
    (∀ a, t.currentPhase ≠ 4 →
      isErr (phase4Submit t a).1 = true ∧ (phase4Submit t a).2 = t) ∧
    (∀ a s, t.currentPhase ≠ 5 →
      isErr (phase5Complete t a s).1 = true ∧ (phase5Complete t a s).2 = t) ∧
    (∀ l, t.currentPhase ≠ 6 →
      isErr (phase6Submit t l).1 = true ∧ (phase6Submit t l).2 = t) ∧
    (t.phase2Completed = true →
      (isErr (phase2Complete t).1 = true ∧ (phase2Complete t).2 = t) ∧
      (∀ a, isErr (phase2Submit t a).1 = true ∧ (phase2Submit t a).2 = t)) ∧
    (t.phase2Completed = false →
      (phase2Complete t).2 =
        { t with phase2Completed := true, currentPhase := 3 }) := by
  refine ⟨?_, ?_, ?_, ?_, ?_, ?_, ?_⟩
  · intro p hne
    rcases phase1Submit_cases t p with ⟨hi, h2⟩ | ⟨_, _, _, _, hcp, _, _⟩
    · exact ⟨hi, h2⟩
    · exact absurd hcp hne
  · intro a hne
    rcases phase3Submit_cases t a with ⟨hi, h2⟩ | ⟨_, _, hcp, _, _⟩
    · exact ⟨hi, h2⟩
    · exact absurd hcp hne
  · intro a hne
    rcases phase4Submit_cases t a with ⟨hi, h2⟩ | ⟨hcp, _, _⟩
    · exact ⟨hi, h2⟩
    · exact absurd hcp hne
  · intro a s hne
    rcases phase5Complete_cases t a s with ⟨_, hi, h2⟩ | ⟨hcp, _⟩
    · exact ⟨hi, h2⟩
    · exact absurd hcp hne
  · intro l hne
    rcases phase6Submit_cases t l with ⟨hi, h2⟩ | ⟨hcp, _, _⟩
    · exact ⟨hi, h2⟩
    · exact absurd hcp hne
  · intro hb
    constructor
    · rcases phase2Complete_cases t with ⟨_, hi, h2⟩ | ⟨hbf, _⟩
      · exact ⟨hi, h2⟩
      · exact absurd (hbf.symm.trans hb) (by decide)
    · intro a
      rcases phase2Submit_cases t a with ⟨hi, h2⟩ | ⟨_, _, hbf, _⟩
      · exact ⟨hi, h2⟩
      · exact absurd (hbf.symm.trans hb) (by decide)
  · intro hb
    rcases phase2Complete_cases t with ⟨hbt, _, _⟩ | ⟨_, heq⟩
    · exact absurd (hb.symm.trans hbt) (by decide)
    · rw [heq]

/-- Claim C1 witness: the amended theorem exercised on a concrete record with
`currentPhase = 9` and phase 2 flagged completed. -/
theorem C1_wrongPhaseRejected_witness :
    (isErr (phase1Submit guardTeam (some "go VU2050")).1 = true ∧
      (phase1Submit guardTeam (some "go VU2050")).2 = guardTeam) ∧
    (isErr (phase3Submit guardTeam (some correctP3)).1 = true ∧
      (phase3Submit guardTeam (some correctP3)).2 = guardTeam) ∧
    (isErr (phase4Submit guardTeam (some "22")).1 = true ∧
      (phase4Submit guardTeam (some "22")).2 = guardTeam) ∧
    (isErr (phase5Complete guardTeam (some correctP5) JVal.other).1 = true ∧
      (phase5Complete guardTeam (some correctP5) JVal.other).2 = guardTeam) ∧
    (isErr (phase6Submit guardTeam (some "loc")).1 = true ∧
      (phase6Submit guardTeam (some "loc")).2 = guardTeam) ∧
    (isErr (phase2Complete guardTeam).1 = true ∧
      (phase2Complete guardTeam).2 = guardTeam) :=
  ⟨(C1_wrongPhaseRejected guardTeam).1 _ (by decide),
   (C1_wrongPhaseRejected guardTeam).2.1 _ (by decide),
   (C1_wrongPhaseRejected guardTeam).2.2.1 _ (by decide),
   (C1_wrongPhaseRejected guardTeam).2.2.2.1 _ _ (by decide),
   (C1_wrongPhaseRejected guardTeam).2.2.2.2.1 _ (by decide),
   ((C1_wrongPhaseRejected guardTeam).2.2.2.2.2.1 (by decide)).1⟩

/- ----------------------------------------------------------------
Claim C2.
---------------------------------------------------------------- -/

/-- Claim C2 counterexample: from the reachable freshly registered team the
phase-2 complete handler succeeds and moves `currentPhase` from 1 directly to
3, refuting the claim that each successful completion advances by exactly 1
with no skipped value. -/
theorem C2_counterexample :
    Reachable sampleTeam ∧ sampleTeam.currentPhase = 1 ∧
    (phase2Complete sampleTeam).1 =
      .ok { success := true, message := "Phase 2 completed!" } ∧
    (applyEvent sampleTeam Event.p2complete).currentPhase = 3 :=
  ⟨reachable_sampleTeam, rfl, rfl, rfl⟩

/-- Claim C2 (amended): over reachable team states `currentPhase` never
decreases and never exceeds 7; a successful submission to phases 1, 3, 4, 5
or 6 advances it by exactly 1; a successful phase-2 submission (either
endpoint) sets it to 3 from a value at most 2, which skips the value 2 when
invoked at `currentPhase = 1`. -/
theorem C2_stepMonotone (t : Team) (h : Reachable t) :
    (∀ e, t.currentPhase ≤ (applyEvent t e).currentPhase ∧
      (applyEvent t e).currentPhase ≤ 7) ∧
    (∀ p, isErr (phase1Submit t p).1 = false →
      (phase1Submit t p).2.currentPhase = t.currentPhase + 1) ∧
    (∀ a, p3Passed (phase3Submit t a).1 = true →
      (phase3Submit t a).2.currentPhase = t.currentPhase + 1) ∧
    (∀ a, p4Correct (phase4Submit t a).1 = true →
      (phase4Submit t a).2.currentPhase = t.currentPhase + 1) ∧
    (∀ a s, p5Success (phase5Complete t a s).1 = true →
      (phase5Complete t a s).2.currentPhase = t.currentPhase + 1) ∧
    (∀ l, isErr (phase6Submit t l).1 = false →
      (phase6Submit t l).2.currentPhase = t.currentPhase + 1) ∧
    (isErr (phase2Complete t).1 = false →
      (phase2Complete t).2.currentPhase = 3 ∧ t.currentPhase ≤ 2) ∧
    (∀ a, p2Passed (phase2Submit t a).1 = true →
      (phase2Submit t a).2.currentPhase = 3 ∧ t.currentPhase ≤ 2) := by
  have hInv := reachable_inv h
  obtain ⟨h1, h2, h3, h4, h5, h6, h7, h8, h9, h10, h11, h12, h13⟩ := reachable_inv h
  refine ⟨?_, ?_, ?_, ?_, ?_, ?_, ?_, ?_⟩
  · intro e
    refine ⟨?_, (inv_applyEvent t e hInv).2.1⟩
    cases e with
    | p1 p =>
      simp only [applyEvent]
      rcases phase1Submit_cases t p with ⟨_, heq⟩ | ⟨_, _, _, _, hcp, _, heq⟩
      · rw [heq]
      · rw [heq]; show t.currentPhase ≤ 2; omega
    | p2check qi a => exact Nat.le_refl _
    | p2complete =>
      simp only [applyEvent]
      rcases phase2Complete_cases t with ⟨_, _, heq⟩ | ⟨hb2, heq⟩
      · rw [heq]
      · rw [heq]
        show t.currentPhase ≤ 3
        by_contra hc
        have hpc := h9 (by omega)
        rw [hb2] at hpc
        exact Bool.false_ne_true hpc
    | p2submit a =>
      simp only [applyEvent]
      rcases phase2Submit_cases t a with ⟨_, heq⟩ | ⟨l, _, hb2, ⟨_, heq⟩ | ⟨_, heq⟩⟩
      · rw [heq]
      · rw [heq]
        show t.currentPhase ≤ 3
        by_contra hc
        have hpc := h9 (by omega)
        rw [hb2] at hpc
        exact Bool.false_ne_true hpc
      · rw [heq]
    | p3submit a =>
      simp only [applyEvent]
      rcases phase3Submit_cases t a with ⟨_, heq⟩ | ⟨_, _, hcp, _, ⟨_, heq⟩ | ⟨_, heq⟩⟩
      · rw [heq]
      · rw [heq]; show t.currentPhase ≤ 4; omega
      · rw [heq]
    | p4submit a =>
      simp only [applyEvent]
      rcases phase4Submit_cases t a with ⟨_, heq⟩ | ⟨hcp, _, ⟨_, heq⟩ | ⟨_, heq⟩⟩
      · rw [heq]
      · rw [heq]; show t.currentPhase ≤ 5; omega
      · rw [heq]
    | p5answer r a => exact Nat.le_refl _
    | p5complete a s =>
      simp only [applyEvent]
      rcases phase5Complete_cases t a s with ⟨_, _, heq⟩ | ⟨hcp, ⟨_, heq⟩ | ⟨_, heq⟩⟩
      · rw [heq]
      · rw [heq]
      · rw [heq]; show t.currentPhase ≤ 6; omega
    | p6submit l =>
      simp only [applyEvent]
      rcases phase6Submit_cases t l with ⟨_, heq⟩ | ⟨hcp, _, heq⟩
      · rw [heq]
      · rw [heq]; show t.currentPhase ≤ 7; omega
  · intro p hok
    rcases phase1Submit_cases t p with ⟨hi, _⟩ | ⟨_, _, _, _, hcp, _, heq⟩
    · exact absurd (hi.symm.trans hok) (by decide)
    · rw [heq, hcp]
  · intro a hok
    rcases phase3Submit_cases t a with ⟨hi, _⟩ | ⟨_, _, hcp, _, ⟨_, heq⟩ | ⟨_, heq⟩⟩
    · exact absurd ((p3Passed_of_isErr hi).symm.trans hok) (by decide)
    · rw [heq, hcp]
    · rw [heq] at hok
      simp [p3Passed] at hok
  · intro a hok
    rcases phase4Submit_cases t a with ⟨hi, _⟩ | ⟨hcp, _, ⟨_, heq⟩ | ⟨_, heq⟩⟩
    · exact absurd ((p4Correct_of_isErr hi).symm.trans hok) (by decide)
    · rw [heq, hcp]
    · rw [heq] at hok
      simp [p4Correct] at hok
  · intro a s hok
    rcases phase5Complete_cases t a s with ⟨_, hi, _⟩ | ⟨hcp, ⟨_, heq⟩ | ⟨_, heq⟩⟩
    · exact absurd ((p5Success_of_isErr hi).symm.trans hok) (by decide)
    · rw [heq] at hok
      simp [p5Success] at hok
    · rw [heq, hcp]
  · intro l hok
    rcases phase6Submit_cases t l with ⟨hi, _⟩ | ⟨hcp, _, heq⟩
    · exact absurd (hi.symm.trans hok) (by decide)
    · rw [heq, hcp]
  · intro hok
    rcases phase2Complete_cases t with ⟨_, hi, _⟩ | ⟨hb2, heq⟩
    · exact absurd (hi.symm.trans hok) (by decide)
    · refine ⟨by rw [heq], ?_⟩
      by_contra hc
      have hpc := h9 (by omega)
      rw [hb2] at hpc
      exact Bool.false_ne_true hpc
  · intro a hok
    rcases phase2Submit_cases t a with ⟨hi, _⟩ | ⟨l, _, hb2, ⟨_, heq⟩ | ⟨_, heq⟩⟩
    · exact absurd ((p2Passed_of_isErr hi).symm.trans hok) (by decide)
    · refine ⟨by rw [heq], ?_⟩
      by_contra hc
      have hpc := h9 (by omega)
      rw [hb2] at hpc
      exact Bool.false_ne_true hpc
    · rw [heq] at hok
      simp [p2Passed] at hok

/-- Claim C2 witness: the amended theorem exercised on the sample run, at the
phase-1 step (exact +1 advance) and at the phase-3 step. -/
theorem C2_stepMonotone_witness :
    (phase1Submit sampleTeam (some "test VU2050 plan")).2.currentPhase =
      sampleTeam.currentPhase + 1 ∧
    (phase3Submit run2 (some correctP3)).2.currentPhase = run2.currentPhase + 1 :=
  ⟨(C2_stepMonotone sampleTeam reachable_sampleTeam).2.1 _ (by decide),
   (C2_stepMonotone run2 reachable_run2).2.2.1 _ (by decide)⟩

/- ----------------------------------------------------------------
Claim C3.
---------------------------------------------------------------- -/

/-- Claim C3: on any reachable team state, a resubmission to a phase whose
completed flag is already set is rejected with a domain error and leaves the
record unchanged, for every phase and any answer payload; in particular a
second phase-5 complete call after a passing one is rejected without
rescoring. -/
theorem C3_resubmitRejected (t : Team) (h : Reachable t) :
    (t.phase1Completed = true → ∀ p,
      isErr (phase1Submit t p).1 = true ∧ (phase1Submit t p).2 = t) ∧
    (t.phase2Completed = true →
      (isErr (phase2Complete t).1 = true ∧ (phase2Complete t).2 = t) ∧
      (∀ a, isErr (phase2Submit t a).1 = true ∧ (phase2Submit t a).2 = t)) ∧
    (t.phase3Completed = true → ∀ a,
      isErr (phase3Submit t a).1 = true ∧ (phase3Submit t a).2 = t) ∧
    (t.phase4Completed = true → ∀ a,
      isErr (phase4Submit t a).1 = true ∧ (phase4Submit t a).2 = t) ∧
    (t.phase5Completed = true → ∀ a s,
      isErr (phase5Complete t a s).1 = true ∧ (phase5Complete t a s).2 = t) ∧
    (t.phase6Completed = true → ∀ l,
      isErr (phase6Submit t l).1 = true ∧ (phase6Submit t l).2 = t) := by
  obtain ⟨h1, h2, h3, h4, h5, h6, h7, h8, h9, h10, h11, h12, h13⟩ := reachable_inv h
  refine ⟨?_, ?_, ?_, ?_, ?_, ?_⟩
  · intro hb p
    rcases phase1Submit_cases t p with ⟨hi, heq⟩ | ⟨_, _, _, hbf, _, _, _⟩
    · exact ⟨hi, heq⟩
    · exact absurd (hbf.symm.trans hb) (by decide)
  · intro hb
    constructor
    · rcases phase2Complete_cases t with ⟨_, hi, heq⟩ | ⟨hbf, _⟩
      · exact ⟨hi, heq⟩
      · exact absurd (hbf.symm.trans hb) (by decide)
    · intro a
      rcases phase2Submit_cases t a with ⟨hi, heq⟩ | ⟨_, _, hbf, _⟩
      · exact ⟨hi, heq⟩
      · exact absurd (hbf.symm.trans hb) (by decide)
  · intro hb a
    rcases phase3Submit_cases t a with ⟨hi, heq⟩ | ⟨_, _, _, hbf, _⟩
    · exact ⟨hi, heq⟩
    · exact absurd (hbf.symm.trans hb) (by decide)
  · intro hb a
    rcases phase4Submit_cases t a with ⟨hi, heq⟩ | ⟨_, hbf, _⟩
    · exact ⟨hi, heq⟩
    · exact absurd (hbf.symm.trans hb) (by decide)
  · intro hb a s
    rcases phase5Complete_cases t a s with ⟨_, hi, heq⟩ | ⟨hcp, _⟩
    · exact ⟨hi, heq⟩
    · exfalso; have := h7 hb; omega
  · intro hb l
    rcases phase6Submit_cases t l with ⟨hi, heq⟩ | ⟨_, hbf, _⟩
    · exact ⟨hi, heq⟩
    · exact absurd (hbf.symm.trans hb) (by decide)

/-- Claim C3 witness: the theorem exercised on the fully completed sample run
(all six completed flags set), one resubmission per phase. -/
theorem C3_resubmitRejected_witness :
    (isErr (phase1Submit run6 (some "again VU2050")).1 = true ∧
      (phase1Submit run6 (some "again VU2050")).2 = run6) ∧
    (isErr (phase2Submit run6 (some correctP2)).1 = true ∧
      (phase2Submit run6 (some correctP2)).2 = run6) ∧
    (isErr (phase3Submit run6 (some correctP3)).1 = true ∧
      (phase3Submit run6 (some correctP3)).2 = run6) ∧
    (isErr (phase4Submit run6 (some "22")).1 = true ∧
      (phase4Submit run6 (some "22")).2 = run6) ∧
    (isErr (phase5Complete run6 (some correctP5) (JVal.num 3)).1 = true ∧
      (phase5Complete run6 (some correctP5) (JVal.num 3)).2 = run6) ∧
    (isErr (phase6Submit run6 (some "library")).1 = true ∧
      (phase6Submit run6 (some "library")).2 = run6) :=
  ⟨(C3_resubmitRejected run6 reachable_run6).1 (by decide) _,
   ((C3_resubmitRejected run6 reachable_run6).2.1 (by decide)).2 _,
   (C3_resubmitRejected run6 reachable_run6).2.2.1 (by decide) _,
   (C3_resubmitRejected run6 reachable_run6).2.2.2.1 (by decide) _,
   (C3_resubmitRejected run6 reachable_run6).2.2.2.2.1 (by decide) _ _,
   (C3_resubmitRejected run6 reachable_run6).2.2.2.2.2 (by decide) _⟩

/- ----------------------------------------------------------------
Claim C4.
---------------------------------------------------------------- -/

/-- Claim C4: the phase-5 complete handler is insensitive to the
client-supplied `score` field — two requests differing only there produce
identical outcomes — and when the team is on phase 5 the returned score is the
server-side recomputation and the pass decision is exactly
`totalRiddles ≤ phase5ServerScore answers`. -/
theorem C4_scoreFieldIgnored (t : Team) (a : Option (List (String × JVal)))
    (s1 s2 : JVal) :
    phase5Complete t a s1 = phase5Complete t a s2 ∧
    (t.currentPhase = 5 →
      p5Score (phase5Complete t a s1).1 = some (phase5ServerScore a) ∧
      p5Success (phase5Complete t a s1).1 =
        decide (totalRiddles ≤ phase5ServerScore a)) := by
  refine ⟨rfl, ?_⟩
  intro hcp
  rcases phase5Complete_cases t a s1 with ⟨hne, _, _⟩ | ⟨_, ⟨hsc, heq⟩ | ⟨hsc, heq⟩⟩
  · exact absurd hcp hne
  · rw [heq]
    refine ⟨rfl, ?_⟩
    show false = decide (totalRiddles ≤ phase5ServerScore a)
    symm
    rw [decide_eq_false_iff_not]
    omega
  · rw [heq]
    refine ⟨rfl, ?_⟩
    show true = decide (totalRiddles ≤ phase5ServerScore a)
    symm
    rw [decide_eq_true_eq]
    omega

/-- Claim C4 witness: the theorem exercised at phase 5 of the sample run with
two different forged score fields. -/
theorem C4_scoreFieldIgnored_witness :
    phase5Complete run4 (some wrongP5) (JVal.num 99) =
      phase5Complete run4 (some wrongP5) (JVal.num 0) ∧
    p5Score (phase5Complete run4 (some wrongP5) (JVal.num 99)).1 =
      some (phase5ServerScore (some wrongP5)) ∧
    p5Success (phase5Complete run4 (some wrongP5) (JVal.num 99)).1 =
      decide (totalRiddles ≤ phase5ServerScore (some wrongP5)) :=
  ⟨(C4_scoreFieldIgnored run4 (some wrongP5) (JVal.num 99) (JVal.num 0)).1,
   ((C4_scoreFieldIgnored run4 (some wrongP5) (JVal.num 99) (JVal.num 0)).2
     (by decide)).1,
   ((C4_scoreFieldIgnored run4 (some wrongP5) (JVal.num 99) (JVal.num 0)).2
     (by decide)).2⟩

/- ----------------------------------------------------------------
Claim C5.
---------------------------------------------------------------- -/

/-- Claim C5 counterexample: the phase-2 complete endpoint carries no answers
and performs no server-side scoring, yet marks phase 2 completed and advances
the team — here on the reachable team that just finished phase 1 — refuting
the claim that every phase-2 completion path requires all items correct. -/
theorem C5_counterexample :
    Reachable run1 ∧ run1.currentPhase = 2 ∧ run1.phase2Completed = false ∧
    (phase2Complete run1).1 =
      .ok { success := true, message := "Phase 2 completed!" } ∧
    (phase2Complete run1).2.phase2Completed = true ∧
    (phase2Complete run1).2.currentPhase = 3 :=
  ⟨reachable_run1, rfl, rfl, rfl, rfl, rfl⟩

/-- Claim C5 (amended): for the scoring endpoints the claim holds — a phase-2
submit whose server-computed score is below 10 never changes the record and
reports failure, and a phase-5 complete whose server-recomputed score is below
3 never changes the record and reports failure; the phase-2 complete endpoint,
however, performs no scoring and completes unconditionally whenever the
phase-2 flag is clear. -/
theorem C5_failedScoreNoAdvance (t : Team) :
    (∀ a, phase2Score a < phase2Questions.length →
      (phase2Submit t (some a)).2 = t ∧
      p2Passed (phase2Submit t (some a)).1 = false) ∧
    (∀ a s, phase5ServerScore a < totalRiddles →
      (phase5Complete t a s).2 = t ∧
      p5Success (phase5Complete t a s).1 = false) ∧
    (t.phase2Completed = false →
      (phase2Complete t).2.phase2Completed = true ∧
      (phase2Complete t).2.currentPhase = 3) := by
  refine ⟨?_, ?_, ?_⟩
  · intro a hsc
    rcases phase2Submit_cases t (some a) with
      ⟨hi, heq⟩ | ⟨l, hal, hb2, ⟨hp, _⟩ | ⟨_, heq⟩⟩
    · exact ⟨heq, p2Passed_of_isErr hi⟩
    · cases Option.some.inj hal
      exact absurd hp (by omega)
    · cases Option.some.inj hal
      rw [heq]
      exact ⟨team_update_p2false t hb2, rfl⟩
  · intro a s hsc
    rcases phase5Complete_cases t a s with ⟨_, hi, heq⟩ | ⟨_, ⟨_, heq⟩ | ⟨hp, _⟩⟩
    · exact ⟨heq, p5Success_of_isErr hi⟩
    · rw [heq]
      exact ⟨rfl, rfl⟩
    · exact absurd hp (by omega)
  · intro hb
    rcases phase2Complete_cases t with ⟨hbt, _, _⟩ | ⟨_, heq⟩
    · exact absurd (hb.symm.trans hbt) (by decide)
    · rw [heq]
      exact ⟨rfl, rfl⟩

/-- Claim C5 witness: a nine-of-ten phase-2 submission and a two-of-three
phase-5 completion, both on the sample run, leave the records unchanged. -/
theorem C5_failedScoreNoAdvance_witness :
    phase2Score almostP2 < phase2Questions.length ∧
    ((phase2Submit run1 (some almostP2)).2 = run1 ∧
      p2Passed (phase2Submit run1 (some almostP2)).1 = false) ∧
    phase5ServerScore (some wrongP5) < totalRiddles ∧
    ((phase5Complete run4 (some wrongP5) JVal.other).2 = run4 ∧
      p5Success (phase5Complete run4 (some wrongP5) JVal.other).1 = false) :=
  ⟨by decide,
   (C5_failedScoreNoAdvance run1).1 almostP2 (by decide),
   by decide,
   (C5_failedScoreNoAdvance run4).2.1 (some wrongP5) JVal.other (by decide)⟩

/- ----------------------------------------------------------------
Claim C6.
---------------------------------------------------------------- -/

/-- Claim C6: for a team on phase 3 with phase 3 not completed, the phase-3
submit handler passes exactly when the server-computed score reaches
`MIN_SCORE = 3` of 5 (so a score of exactly 3 passes, setting the completed
flag and `currentPhase = 4`, and a score of 2 fails with no state change), and
both the pass and the fail response carry the full question set with its
correct answers. -/
theorem C6_phase3MinScore (t : Team) (a : List JVal)
    (hphase : t.currentPhase = 3) (hnc : t.phase3Completed = false) :
    (MIN_SCORE ≤ phase3Score a →
      phase3Submit t (some a) =
        (.ok { success := true, score := phase3Score a, passed := true,
               results := phase3Results a, questions := phase3Questions },
         { t with phase3Completed := true, currentPhase := 4 })) ∧
    (phase3Score a < MIN_SCORE →
      phase3Submit t (some a) =
        (.ok { success := true, score := phase3Score a, passed := false,
               results := phase3Results a, questions := phase3Questions }, t)) := by
  constructor
  · intro hsc
    simp [phase3Submit, hphase, hnc, Nat.not_lt.mpr hsc]
  · intro hsc
    simp [phase3Submit, hphase, hnc, hsc]

/-- Claim C6 witness: on the sample run at phase 3, a 3-of-5 answer sheet
passes and a 2-of-5 sheet leaves the record unchanged. -/
theorem C6_phase3MinScore_witness :
    phase3Score score3Answers = 3 ∧ phase3Score score2Answers = 2 ∧
    (phase3Submit run2 (some score3Answers)).2 =
      { run2 with phase3Completed := true, currentPhase := 4 } ∧
    (phase3Submit run2 (some score2Answers)).2 = run2 :=
  ⟨by decide, by decide,
   congrArg Prod.snd
     ((C6_phase3MinScore run2 score3Answers (by decide) (by decide)).1 (by decide)),
   congrArg Prod.snd
     ((C6_phase3MinScore run2 score2Answers (by decide) (by decide)).2 (by decide))⟩

/- ----------------------------------------------------------------
Claim C7.
---------------------------------------------------------------- -/

/-- Claim C7: for a team on phase 4 with phase 4 not completed, the phase-4
submit handler accepts exactly the answers whose trimmed lowercased form is
the canonical string or the alias "22" (advancing to phase 5), and rejects
every other answer — a missing one included — as incorrect with no state
change. -/
theorem C7_phase4ExactAnswers (t : Team) (ans : Option String)
    (hphase : t.currentPhase = 4) (hnc : t.phase4Completed = false) :
    (jsNormalizeAnswer ans = "positive sum: 22, count: 4" ∨
        jsNormalizeAnswer ans = "22" →
      phase4Submit t ans =
        (.ok { success := true, correct := true,
               message := "Correct! The next treasure is at Room 2012!",
               room := some "2012" },
         { t with phase4Completed := true, currentPhase := 5 })) ∧
    (jsNormalizeAnswer ans ≠ "positive sum: 22, count: 4" ∧
        jsNormalizeAnswer ans ≠ "22" →
      phase4Submit t ans =
        (.ok { success := false, correct := false,
               message := "Incorrect output. Try again!", room := none }, t)) := by
  constructor
  · intro hok
    unfold phase4Submit
    rw [if_neg (not_not_intro hphase), if_neg (by simp [hnc]), if_pos hok]
  · intro hbad
    unfold phase4Submit
    rw [if_neg (not_not_intro hphase), if_neg (by simp [hnc]),
        if_neg (not_or.mpr hbad)]

/-- Claim C7 witness: on the sample run at phase 4, the canonical answer in
mixed case with padding and the alias "22" both pass, while a wrong answer and
a missing answer leave the record unchanged. -/
theorem C7_phase4ExactAnswers_witness :
    (phase4Submit run3 (some " Positive Sum: 22, Count: 4 ")).2 =
      { run3 with phase4Completed := true, currentPhase := 5 } ∧
    (phase4Submit run3 (some "22")).2 =
      { run3 with phase4Completed := true, currentPhase := 5 } ∧
    (phase4Submit run3 (some "sum 21")).2 = run3 ∧
    (phase4Submit run3 none).2 = run3 :=
  ⟨congrArg Prod.snd
     ((C7_phase4ExactAnswers run3 (some " Positive Sum: 22, Count: 4 ")
       (by decide) (by decide)).1 (by decide)),
   congrArg Prod.snd
     ((C7_phase4ExactAnswers run3 (some "22") (by decide) (by decide)).1
       (by decide)),
   congrArg Prod.snd
     ((C7_phase4ExactAnswers run3 (some "sum 21") (by decide) (by decide)).2
       (by decide)),
   congrArg Prod.snd
     ((C7_phase4ExactAnswers run3 none (by decide) (by decide)).2 (by decide))⟩

/- ----------------------------------------------------------------
Claim C8.
---------------------------------------------------------------- -/

/-- Claim C8: for an existing team on phase 1 with phase 1 not completed, the
phase-1 submit handler passes exactly when the uppercased prompt contains the
substring VU2050: on pass it stores the prompt, sets the completed flag and
`currentPhase = 2`; on a prompt lacking the marker it returns an error with no
state change. -/
theorem C8_phase1Marker (t : Team) (p : String)
    (hphase : t.currentPhase = 1) (hnc : t.phase1Completed = false) :
    (jsIncludes (jsToUpper p) "VU2050" = true →
      phase1Submit t (some p) =
        (.ok { success := true, message := "Phase 1 completed!" },
         { t with phase1Prompt := some p, phase1Completed := true,
                  currentPhase := 2 })) ∧
    (jsIncludes (jsToUpper p) "VU2050" = false →
      isErr (phase1Submit t (some p)).1 = true ∧
      (phase1Submit t (some p)).2 = t) := by
  constructor
  · intro hinc
    have hp : p ≠ "" := by
      intro he
      rw [he] at hinc
      exact absurd hinc (by decide)
    simp only [phase1Submit]
    rw [if_neg hp, if_neg (by simp [hnc]), if_neg (not_not_intro hphase),
        if_pos hinc]
  · intro hinc
    by_cases hp : p = ""
    · subst hp
      exact ⟨rfl, rfl⟩
    · constructor
      · simp only [phase1Submit]
        rw [if_neg hp, if_neg (by simp [hnc]), if_neg (not_not_intro hphase),
            if_neg (by simp [hinc])]
        rfl
      · simp only [phase1Submit]
        rw [if_neg hp, if_neg (by simp [hnc]), if_neg (not_not_intro hphase),
            if_neg (by simp [hinc])]

/-- Claim C8 witness: the spec example prompt "test VU2050 plan" passes on the
freshly registered team, and a prompt without the marker is rejected with no
state change. -/
theorem C8_phase1Marker_witness :
    (phase1Submit sampleTeam (some "test VU2050 plan")).2 =
      { sampleTeam with phase1Prompt := some "test VU2050 plan",
                        phase1Completed := true, currentPhase := 2 } ∧
    isErr (phase1Submit sampleTeam (some "no marker here")).1 = true ∧
    (phase1Submit sampleTeam (some "no marker here")).2 = sampleTeam :=
  ⟨congrArg Prod.snd
     ((C8_phase1Marker sampleTeam "test VU2050 plan" (by decide) (by decide)).1
       (by decide)),
   ((C8_phase1Marker sampleTeam "no marker here" (by decide) (by decide)).2
     (by decide)).1,
   ((C8_phase1Marker sampleTeam "no marker here" (by decide) (by decide)).2
     (by decide)).2⟩

/- ----------------------------------------------------------------
Claim C9.
---------------------------------------------------------------- -/

/-- Claim C9: for every store state, the leaderboard query returns at most 10
entries, and every entry is the projection of a stored team whose phase-6
completed flag is set. -/
theorem C9_leaderboardBounded (teams : List Team) :
    (getCompletedTeams teams).length ≤ 10 ∧
    ∀ e ∈ getCompletedTeams teams, ∃ t ∈ teams, t.phase6Completed = true ∧
      e = { teamId := t.teamId, teamName := t.teamName,
            teamLeader := t.teamLeader } := by
  constructor
  · simp only [getCompletedTeams]
    exact List.length_take_le _ _
  · intro e he
    simp only [getCompletedTeams] at he
    have he' := List.mem_of_mem_take he
    rcases List.mem_map.mp he' with ⟨t, ht, hproj⟩
    rcases List.mem_filter.mp ht with ⟨htm, hflag⟩
    exact ⟨t, htm, by simpa using hflag, hproj.symm⟩

/-- Claim C9 witness: a two-team store in which only the fully completed team
appears on the leaderboard. -/
theorem C9_leaderboardBounded_witness :
    (getCompletedTeams [run6, sampleTeam]).length ≤ 10 ∧
    (∃ t ∈ [run6, sampleTeam], t.phase6Completed = true ∧
      ({ teamId := run6.teamId, teamName := run6.teamName,
         teamLeader := run6.teamLeader } : LeaderboardEntry) =
        { teamId := t.teamId, teamName := t.teamName,
          teamLeader := t.teamLeader }) :=
  ⟨(C9_leaderboardBounded [run6, sampleTeam]).1,
   (C9_leaderboardBounded [run6, sampleTeam]).2 _ (by decide)⟩

/- ----------------------------------------------------------------
Claim C10.
---------------------------------------------------------------- -/

/-- Claim C10: on every reachable team state, each phase-N completed flag
implies `currentPhase ≥ N + 1`; consequently the `currentPhase` equality guard
alone rejects a replay of the phase-5 complete handler, which has no explicit
completed-flag check. -/
theorem C10_completedImpliesAdvanced (t : Team) (h : Reachable t) :
    (t.phase1Completed = true → 2 ≤ t.currentPhase) ∧
    (t.phase2Completed = true → 3 ≤ t.currentPhase) ∧
    (t.phase3Completed = true → 4 ≤ t.currentPhase) ∧
    (t.phase4Completed = true → 5 ≤ t.currentPhase) ∧
    (t.phase5Completed = true → 6 ≤ t.currentPhase) ∧
    (t.phase6Completed = true → 7 ≤ t.currentPhase) ∧
    (t.phase5Completed = true → ∀ a s,
      isErr (phase5Complete t a s).1 = true ∧ (phase5Complete t a s).2 = t) := by
  obtain ⟨h1, h2, h3, h4, h5, h6, h7, h8, h9, h10, h11, h12, h13⟩ := reachable_inv h
  refine ⟨h3, h4, h5, h6, h7, h8, ?_⟩
  intro hb a s
  rcases phase5Complete_cases t a s with ⟨_, hi, heq⟩ | ⟨hcp, _⟩
  · exact ⟨hi, heq⟩
  · exfalso; have := h7 hb; omega

/-- Claim C10 witness: the sample run right after passing phase 5 has all the
flag bounds, and a replayed phase-5 complete call is rejected unchanged. -/
theorem C10_completedImpliesAdvanced_witness :
    2 ≤ run5.currentPhase ∧ 6 ≤ run5.currentPhase ∧
    isErr (phase5Complete run5 (some correctP5) (JVal.num 99)).1 = true ∧
    (phase5Complete run5 (some correctP5) (JVal.num 99)).2 = run5 :=
  ⟨(C10_completedImpliesAdvanced run5 reachable_run5).1 (by decide),
   (C10_completedImpliesAdvanced run5 reachable_run5).2.2.2.2.1 (by decide),
   ((C10_completedImpliesAdvanced run5 reachable_run5).2.2.2.2.2.2 (by decide)
     (some correctP5) (JVal.num 99)).1,
   ((C10_completedImpliesAdvanced run5 reachable_run5).2.2.2.2.2.2 (by decide)
     (some correctP5) (JVal.num 99)).2⟩

end CodeHunt
